import Mathlib

/-!
Verification development for a personal-finance tracker (single-page app).
The definitions below are a shallow embedding of the core logic of
`src/src/App.tsx` (the final evolution of the app): the monthly aggregator,
the allocation recurrence engine, the month projector, installment
generation, and cohort edit propagation.  JavaScript numbers are modelled
as exact rationals (`ℚ`); amounts are integer-valued at entry time in the
source (`Math.floor`) but the engine arithmetic itself is over numbers.
Calendar dates (`YYYY-MM-DD` strings in the source) are modelled as
year/month/day triples of integers; the month key `date.substring(0, 7)`
becomes the (year, month) pair.
-/

namespace CriticalWealth

/-- Calendar date, modelling the `YYYY-MM-DD` date strings of the source. -/
structure CalDate where
  year : ℤ
  month : ℤ
  day : ℤ
deriving DecidableEq, Repr

/-- Transaction tag, from the `tag` union type of `Transaction` in App.tsx. -/
inductive Tag where
  | need
  | want
  | income
  | invest_monthly
  | invest_cumulative
deriving DecidableEq, Repr

/-- Investment source, from the `investSource` union type in App.tsx. -/
inductive InvestSource where
  | monthly
  | cumulative
deriving DecidableEq, Repr

/-- Transaction type, from the `type` union in App.tsx. -/
inductive TxType where
  | income
  | expense
deriving DecidableEq, Repr

/-- A transaction record, embedding the `Transaction` interface of App.tsx.
The optional boolean flags (`fromSavings`, `fromEmergency`,
`isAssetLiquidation`) are `Bool` here: an absent (undefined) flag is falsy
in the source, which is `false` here. -/
structure Transaction where
  id : ℕ
  date : CalDate
  category : String
  amount : ℚ
  type : TxType
  tag : Tag
  note : String
  groupId : Option String
  investSource : Option InvestSource
  fromSavings : Bool
  fromEmergency : Bool
  isAssetLiquidation : Bool
deriving DecidableEq, Repr

/-- The reserved income category label (`'收入'` in the source). -/
def incomeCategory : String := "收入"

/-- The reserved investment category label (`'投資'` in the source). -/
def investCategory : String := "投資"

/-- Month key of a transaction: the `t.date.substring(0, 7)` (`YYYY-MM`)
prefix of the date string, modelled as the (year, month) pair. -/
def MonthKey := ℤ × ℤ
deriving DecidableEq, Repr

/-- Month key of a transaction. -/
def monthKeyOf (t : Transaction) : MonthKey := (t.date.year, t.date.month)

/-- Per-month aggregate record, embedding the `MonthlyData` interface of
App.tsx.  `categoryMap` is the object `{ [key: string]: number }`, modelled
as an association list in insertion order. -/
structure MonthlyData where
  income : ℚ
  assetLiquidation : ℚ
  expense : ℚ
  installmentExpense : ℚ
  savingsExpense : ℚ
  emergencyExpense : ℚ
  actualInvested : ℚ
  investedFromMonthly : ℚ
  investedFromCumulative : ℚ
  need : ℚ
  want : ℚ
  categoryMap : List (String × ℚ)
deriving DecidableEq, Repr

/-- The all-zero `MonthlyData` bucket used by App.tsx whenever a month
bucket is created (for known months, defensively for unknown months, and
for gap-filled months). -/
def emptyMonthlyData : MonthlyData :=
  { income := 0, assetLiquidation := 0, expense := 0, installmentExpense := 0
  , savingsExpense := 0, emergencyExpense := 0, actualInvested := 0
  , investedFromMonthly := 0, investedFromCumulative := 0
  , need := 0, want := 0, categoryMap := [] }

/-- Models `if (!map[c]) map[c] = 0; map[c] += amount` on the category
map. -/
def bumpCategory (m : List (String × ℚ)) (c : String) (a : ℚ) :
    List (String × ℚ) :=
  match m with
  | [] => [(c, a)]
  | (k, v) :: rest =>
      if k = c then (k, v + a) :: rest else (k, v) :: bumpCategory rest c a

/-- One step of the aggregation loop of App.tsx (lines 370–397): fold a
single transaction into its month bucket. -/
def processTx (md : MonthlyData) (t : Transaction) : MonthlyData :=
  let amount := t.amount
  if t.category = incomeCategory then
    if t.isAssetLiquidation then
      { md with assetLiquidation := md.assetLiquidation + amount }
    else
      { md with income := md.income + amount }
  else if t.category = investCategory then
    let md := { md with actualInvested := md.actualInvested + amount }
    if t.investSource = some InvestSource.cumulative then
      { md with investedFromCumulative := md.investedFromCumulative + amount }
    else
      { md with investedFromMonthly := md.investedFromMonthly + amount }
  else
    let md :=
      if t.fromSavings then
        { md with savingsExpense := md.savingsExpense + amount }
      else if t.fromEmergency then
        { md with emergencyExpense := md.emergencyExpense + amount }
      else
        let md := { md with expense := md.expense + amount }
        let md :=
          if t.groupId.isSome then
            { md with installmentExpense := md.installmentExpense + amount }
          else md
        if t.tag = Tag.need then { md with need := md.need + amount }
        else if t.tag = Tag.want then { md with want := md.want + amount }
        else md
    -- the source re-checks `t.category !== '投資'` here; in this branch the
    -- check is always true, and the category map is bumped for flagged and
    -- unflagged ordinary expenses alike
    if t.category ≠ investCategory then
      { md with categoryMap := bumpCategory md.categoryMap t.category amount }
    else md

/-- One iteration of the aggregation loop lifted to the whole month map:
fold transaction `t` into the bucket of its month, leave other months
alone. -/
def aggStep (acc : MonthKey → MonthlyData) (t : Transaction) :
    MonthKey → MonthlyData :=
  fun m => if m = monthKeyOf t then processTx (acc m) t else acc m

/-- The monthly aggregator: the `transactions.forEach` loop of App.tsx
(lines 370–397), as a function from month keys to month buckets.  Buckets
not touched by any transaction are the all-zero bucket, which also models
the pre-created and gap-filled zero buckets of the source. -/
def aggregateMonths (ts : List Transaction) : MonthKey → MonthlyData :=
  ts.foldl aggStep (fun _ => emptyMonthlyData)

/-- Per-month output snapshot, embedding the `ProcessedMonthData` interface
of App.tsx. -/
structure ProcessedMonthData extends MonthlyData where
  netIncome : ℚ
  monthlyMaxInvestable : ℚ
  monthlyRemainingInvestable : ℚ
  cumulativeAddOnAvailable : ℚ
  deficitDeducted : ℚ
  accumulatedDeficit : ℚ
  savings : ℚ
  emergencyFund : ℚ
  divertedToEmergency : ℚ
  repaidDeficit : ℚ
  capitalDivertedToEmergency : ℚ
  emergencyGoal : ℚ
deriving DecidableEq, Repr

/-- The running balances threaded across months by the recurrence
(App.tsx lines 416–421 initialise them, lines 424–477 update them). -/
structure EngineState where
  cumulativeInvestable : ℚ
  cumulativeSavings : ℚ
  runningEmergencyFund : ℚ
  carryOverBudget : ℚ
  unfilledDeficit : ℚ
deriving DecidableEq, Repr

/-- Result of one month's transition: the emitted snapshot, the loop-local
`surplusForNextMonth` / `currentMonthSavingsAddon` values, and the running
balances as they stand after the month. -/
structure StepOut where
  snapshot : ProcessedMonthData
  surplusForNextMonth : ℚ
  savingsAddon : ℚ
  state : EngineState
deriving DecidableEq, Repr

/-- Snapshot assembly shared by both branches of the per-month transition:
the writebacks of App.tsx lines 466–476. -/
def finishMonth (emergencyGoal : ℚ) (md : MonthlyData)
    (netIncome monthlyMaxInvestable monRem cumRem savings1 fund2 : ℚ)
    (deficitDeducted repaid diverted surplusForNextMonth savingsAddon
     unfilled : ℚ) : StepOut :=
  let savings2 := savings1 + savingsAddon
  { snapshot :=
      { toMonthlyData := md
      , netIncome := netIncome
      , monthlyMaxInvestable := monthlyMaxInvestable
      , monthlyRemainingInvestable := monRem
      , cumulativeAddOnAvailable := cumRem
      , deficitDeducted := deficitDeducted
      , accumulatedDeficit := unfilled
      , savings := savings2
      , emergencyFund := fund2
      , divertedToEmergency := diverted
      , repaidDeficit := repaid
      , capitalDivertedToEmergency := 0
      , emergencyGoal := emergencyGoal }
  , surplusForNextMonth := surplusForNextMonth
  , savingsAddon := savingsAddon
  , state :=
      { cumulativeInvestable := cumRem + monRem
      , cumulativeSavings := savings2
      , runningEmergencyFund := fund2
      , carryOverBudget := surplusForNextMonth
      , unfilledDeficit := unfilled } }

/-- One month's transition of the allocation recurrence engine: the body of
the `sortedMonthsAsc.forEach` loop of App.tsx (lines 424–477).  Mutation is
rendered functionally: a variable mutated inside an `if` block becomes an
`if`-defined delta (zero when the source leaves it unchanged). -/
def stepMonth (emergencyGoal : ℚ) (s : EngineState) (md : MonthlyData) :
    StepOut :=
  let netIncome := md.income - md.expense
  let monthlyMaxInvestable := s.carryOverBudget
  let cumRem0 := s.cumulativeInvestable - md.investedFromCumulative
  let monRem := monthlyMaxInvestable - md.investedFromMonthly
  let savings1 := s.cumulativeSavings + md.assetLiquidation - md.savingsExpense
  let fund1 := s.runningEmergencyFund - md.emergencyExpense
  if netIncome < 0 then
    let deficit := |netIncome|
    finishMonth emergencyGoal md netIncome monthlyMaxInvestable monRem
      (cumRem0 - deficit) savings1 fund1
      deficit 0 0 0 0 (s.unfilledDeficit + deficit)
  else
    let availableSurplus0 := netIncome
    let repaid :=
      if 0 < s.unfilledDeficit then min availableSurplus0 s.unfilledDeficit
      else 0
    let availableSurplus1 := availableSurplus0 - repaid
    let unfilled1 := s.unfilledDeficit - repaid
    let cumRem1 := cumRem0 + repaid
    let emergencyGap := max 0 (emergencyGoal - fund1)
    let diverted :=
      if 0 < availableSurplus1 ∧ 0 < emergencyGap then
        min availableSurplus1 emergencyGap
      else 0
    let availableSurplus2 := availableSurplus1 - diverted
    let fund2 := fund1 + diverted
    let surplusForNextMonth :=
      if 0 < availableSurplus2 then availableSurplus2 * 0.9 else 0
    let savingsAddon :=
      if 0 < availableSurplus2 then availableSurplus2 * 0.1 else 0
    finishMonth emergencyGoal md netIncome monthlyMaxInvestable monRem
      cumRem1 savings1 fund2
      0 repaid diverted surplusForNextMonth savingsAddon unfilled1

/-- The allocation recurrence engine: walk the months in the given
(ascending) order, threading the running balances, and collect each
month's snapshot keyed by its month (App.tsx lines 424–477). -/
def runEngine (emergencyGoal : ℚ) (init : EngineState)
    (months : List (MonthKey × MonthlyData)) :
    List (MonthKey × ProcessedMonthData) × EngineState :=
  months.foldl
    (fun acc m =>
      let o := stepMonth emergencyGoal acc.2 m.2
      (acc.1 ++ [(m.1, o.snapshot)], o.state))
    ([], init)

/-- The zero-valued placeholder snapshot for a month absent from the
processed data (App.tsx lines 479–485): zero flows, plus the running
totals accumulated through the latest processed month. -/
def fallbackSnapshot (emergencyGoal : ℚ) (final : EngineState) :
    ProcessedMonthData :=
  { toMonthlyData := emptyMonthlyData
  , netIncome := 0
  , monthlyMaxInvestable := final.carryOverBudget
  , monthlyRemainingInvestable := final.carryOverBudget - 0
  , cumulativeAddOnAvailable := final.cumulativeInvestable
  , deficitDeducted := 0
  , accumulatedDeficit := final.unfilledDeficit
  , savings := final.cumulativeSavings
  , emergencyFund := final.runningEmergencyFund
  , divertedToEmergency := 0
  , repaidDeficit := 0
  , capitalDivertedToEmergency := 0
  , emergencyGoal := emergencyGoal }

/-- The month projector: `processedMonthsData[selectedMonth] || { ... }`
(App.tsx lines 479–485).  Total: an absent month yields the fallback
snapshot, never an error. -/
def selectMonthData (emergencyGoal : ℚ) (init : EngineState)
    (months : List (MonthKey × MonthlyData)) (selectedMonth : MonthKey) :
    ProcessedMonthData :=
  let r := runEngine emergencyGoal init months
  match r.1.lookup selectedMonth with
  | some d => d
  | none => fallbackSnapshot emergencyGoal r.2

/-- Percentage-of-goal display for the emergency fund
(`renderDashboardView`, App.tsx line 651): the denominator-zero case is
guarded to 0 instead of NaN/Infinity. -/
def emergencyProgress (emergencyFund emergencyGoal : ℚ) : ℚ :=
  if 0 < emergencyGoal then min (emergencyFund / emergencyGoal * 100) 100
  else 0

/-- Days since 1970-01-01 of a calendar date (civil calendar).  Models
`new Date('YYYY-MM-DD').getTime()` — ISO date strings parse as UTC
midnight, so time differences are whole days (the source works in
milliseconds, i.e. this value times 86400000). -/
def daysFromCivil (dt : CalDate) : ℤ :=
  let y := dt.year - (if dt.month ≤ 2 then 1 else 0)
  let era := Int.fdiv y 400
  let yoe := y - era * 400
  let mp := if 2 < dt.month then dt.month - 3 else dt.month + 9
  let doy := (153 * mp + 2).fdiv 5 + dt.day - 1
  let doe := yoe * 365 + yoe.fdiv 4 - yoe.fdiv 100 + doy
  era * 146097 + doe - 719468

/-- Calendar date of a days-since-1970 count; inverse of `daysFromCivil`.
Models `formatDateToLocal(new Date(ms))` on a whole-day timestamp. -/
def civilFromDays (z0 : ℤ) : CalDate :=
  let z := z0 + 719468
  let era := Int.fdiv z 146097
  let doe := z - era * 146097
  let yoe :=
    (doe - doe.fdiv 1460 + doe.fdiv 36524 - doe.fdiv 146096).fdiv 365
  let y := yoe + era * 400
  let doy := doe - (365 * yoe + yoe.fdiv 4 - yoe.fdiv 100)
  let mp := (5 * doy + 2).fdiv 153
  let d := doy - (153 * mp + 2).fdiv 5 + 1
  let m := if mp < 10 then mp + 3 else mp - 9
  ⟨y + (if m ≤ 2 then 1 else 0), m, d⟩

/-- Leap-year test of the proleptic Gregorian calendar. -/
def isLeapYear (y : ℤ) : Bool := (y % 4 == 0 && y % 100 != 0) || y % 400 == 0

/-- Number of days in a month. -/
def daysInMonth (y m : ℤ) : ℤ :=
  if m = 2 then (if isLeapYear y then 29 else 28)
  else if m = 4 ∨ m = 6 ∨ m = 9 ∨ m = 11 then 30 else 31

/-- Date of the i-th installment: `new Date(y, m - 1 + i, d)` followed by
`if (nextDate.getDate() !== startDay) nextDate.setDate(0)` (App.tsx lines
622–623).  JS `Date` normalises the month index, and a day-of-month
overflowing the target month is rolled back to that month's last day. -/
def installmentDate (y m d : ℤ) (i : ℕ) : CalDate :=
  let total := y * 12 + (m - 1) + i
  let y2 := total.fdiv 12
  let m2 := total % 12 + 1
  ⟨y2, m2, min d (daysInMonth y2 m2)⟩

/-- The entry-form state, embedding the fields of `formData` that reach a
saved transaction.  The amount string is handled separately: `handleSave`
evaluates it to the integer `totalAmount` before use. -/
structure FormData where
  date : CalDate
  category : String
  note : String
  tag : Tag
  type : TxType
  investSource : InvestSource
  fromSavings : Bool
  fromEmergency : Bool
  isAssetLiquidation : Bool
deriving DecidableEq, Repr

/-- Tag actually stored on save (App.tsx lines 557–559): the reserved
income/investment categories force the tag, other categories keep the
user's choice. -/
def finalTag (fd : FormData) : Tag :=
  if fd.category = incomeCategory then Tag.income
  else if fd.category = investCategory then
    (if fd.investSource = InvestSource.cumulative then Tag.invest_cumulative
     else Tag.invest_monthly)
  else fd.tag

/-- The generated cohort id `` `group_${baseId}_${Date.now()}` ``;
`Date.now()` is passed in as `nowMs`. -/
def mkGroupId (baseId nowMs : ℕ) : String :=
  "group_" ++ toString baseId ++ "_" ++ toString nowMs

/-- The i-th transaction generated by the installment branch of
`handleSave` (App.tsx lines 611–629). -/
def installmentTx (fd : FormData) (baseId nowMs count : ℕ)
    (totalAmount : ℤ) (i : ℕ) : Transaction :=
  let perMonthAmount := totalAmount.fdiv count
  let remainder := totalAmount - perMonthAmount * count
  let currentAmount :=
    if i = 0 then perMonthAmount + remainder else perMonthAmount
  { id := baseId + i
  , date := installmentDate fd.date.year fd.date.month fd.date.day i
  , category := fd.category
  , amount := (currentAmount : ℚ)
  , type := fd.type
  , tag := finalTag fd
  , note := fd.note ++ " (" ++ toString (i + 1) ++ "/" ++ toString count ++ ")"
  , groupId := some (mkGroupId baseId nowMs)
  , investSource := some fd.investSource
  , fromSavings := false
  , fromEmergency := false
  , isAssetLiquidation := false }

/-- Installment generation: the `for (let i = 0; i < count; i++)` loop of
`handleSave` (App.tsx lines 620–629). -/
def genInstallments (fd : FormData) (baseId nowMs count : ℕ)
    (totalAmount : ℤ) : List Transaction :=
  (List.range count).map (installmentTx fd baseId nowMs count totalAmount)

/-- Edit of a single (non-cohort) transaction: `handleSave`'s plain map
branch (App.tsx line 601), with the `...formData` spread applied
field-by-field. -/
def simpleEditTx (fd : FormData) (finalAmount : ℚ) (eid : ℕ)
    (t : Transaction) : Transaction :=
  if t.id = eid then
    { t with
      date := fd.date
    , category := fd.category
    , amount := finalAmount
    , type := fd.type
    , tag := finalTag fd
    , note := fd.note
    , investSource := some fd.investSource
    , fromSavings := fd.fromSavings
    , fromEmergency := fd.fromEmergency
    , isAssetLiquidation := fd.isAssetLiquidation }
  else t

/-- Cohort edit of one member: the body of the `transactions.map` of
`handleSave`'s cohort branch (App.tsx lines 564–597).  The date shift is
the millisecond difference of the edited member's old and new dates,
which for ISO date strings is a whole number of days. -/
def cohortEditTx (fd : FormData) (finalAmount : ℚ) (eid : ℕ)
    (orig : Transaction) (g : String) (t : Transaction) : Transaction :=
  if t.groupId = some g then
    let newDate :=
      if t.date ≠ fd.date ∧ t.id = eid then fd.date
      else if t.date ≠ fd.date then
        let timeDiff := daysFromCivil fd.date - daysFromCivil orig.date
        civilFromDays (daysFromCivil t.date + timeDiff)
      else t.date
    if t.id = eid then
      { t with
        date := newDate
      , category := fd.category
      , amount := finalAmount
      , tag := finalTag fd
      , note := fd.note
      , fromSavings := fd.fromSavings
      , fromEmergency := fd.fromEmergency
      , isAssetLiquidation := fd.isAssetLiquidation }
    else
      { t with
        date := newDate
      , category := fd.category
      , tag := finalTag fd
      , fromSavings := fd.fromSavings
      , fromEmergency := fd.fromEmergency
      , isAssetLiquidation := fd.isAssetLiquidation }
  else t

/-- The edit path of `handleSave` (App.tsx lines 561–604): look up the
edited transaction; if it belongs to an installment cohort, map the cohort
edit over the list, otherwise update just the one record. -/
def handleSaveEdit (ts : List Transaction) (eid : ℕ) (fd : FormData)
    (finalAmount : ℚ) : List Transaction :=
  match ts.find? (fun t => t.id == eid) with
  | some orig =>
      match orig.groupId with
      | some g => ts.map (cohortEditTx fd finalAmount eid orig g)
      | none => ts.map (simpleEditTx fd finalAmount eid)
  | none => ts.map (simpleEditTx fd finalAmount eid)

/-! Reference sums over the transaction list, used to compare the source
aggregator against the specification's wording. -/

/-- Contribution of one transaction to the month's ordinary expense:
its amount when it is an ordinary expense-category transaction of that
month not flagged `fromSavings`/`fromEmergency`, else 0. -/
def ordinaryContrib (mk : MonthKey) (t : Transaction) : ℚ :=
  if monthKeyOf t = mk ∧ t.category ≠ incomeCategory ∧ t.category ≠ investCategory
      ∧ t.fromSavings = false ∧ t.fromEmergency = false then t.amount else 0

/-- Sum of ordinary non-flagged expense amounts of a month. -/
def ordinaryExpenseSum (ts : List Transaction) (mk : MonthKey) : ℚ :=
  (ts.map (ordinaryContrib mk)).sum

/-- Contribution of one transaction to the month's invest-from-monthly
total, keyed on the `invest-from-monthly-budget` tag (the spec's wording). -/
def investMonthlyTagContrib (mk : MonthKey) (t : Transaction) : ℚ :=
  if monthKeyOf t = mk ∧ t.category = investCategory ∧ t.tag = Tag.invest_monthly
  then t.amount else 0

/-- The monthly `expense` aggregate as the specification describes it
(refinement reference, stated from the spec's words): ordinary non-flagged
expense amounts plus investment amounts tagged invest-from-monthly-budget. -/
def specExpenseC1 (ts : List Transaction) (mk : MonthKey) : ℚ :=
  ordinaryExpenseSum ts mk + (ts.map (investMonthlyTagContrib mk)).sum

/-- Contribution of one transaction to `investedFromMonthly`, keyed on
`investSource` as the source aggregator does (`=== 'cumulative'` sends the
amount to the cumulative total, everything else to the monthly total). -/
def investMonthlySourceContrib (mk : MonthKey) (t : Transaction) : ℚ :=
  if monthKeyOf t = mk ∧ t.category = investCategory
      ∧ t.investSource ≠ some InvestSource.cumulative then t.amount else 0

/-- Sum of invest-from-monthly amounts of a month, keyed on `investSource`. -/
def investMonthlySourceSum (ts : List Transaction) (mk : MonthKey) : ℚ :=
  (ts.map (investMonthlySourceContrib mk)).sum

lemma processTx_expense (md : MonthlyData) (t : Transaction) :
    (processTx md t).expense = md.expense +
      (if t.category ≠ incomeCategory ∧ t.category ≠ investCategory
          ∧ t.fromSavings = false ∧ t.fromEmergency = false then t.amount else 0) := by
  simp only [processTx]
  split_ifs <;> simp_all

lemma processTx_investedFromMonthly (md : MonthlyData) (t : Transaction) :
    (processTx md t).investedFromMonthly = md.investedFromMonthly +
      (if t.category = investCategory
          ∧ t.investSource ≠ some InvestSource.cumulative then t.amount else 0) := by
  simp only [processTx]
  split_ifs <;> simp_all [incomeCategory, investCategory]

lemma foldl_aggStep_expense (ts : List Transaction) :
    ∀ (acc : MonthKey → MonthlyData) (mk : MonthKey),
      (List.foldl aggStep acc ts mk).expense
        = (acc mk).expense + ordinaryExpenseSum ts mk := by
  induction ts with
  | nil => intro acc mk; simp [ordinaryExpenseSum]
  | cons t ts ih =>
      intro acc mk
      rw [List.foldl_cons, ih]
      have hstep : (aggStep acc t mk).expense
          = (acc mk).expense + ordinaryContrib mk t := by
        by_cases h : mk = monthKeyOf t
        · subst h
          simp [aggStep, processTx_expense, ordinaryContrib]
        · have h2 : monthKeyOf t ≠ mk := fun hh => h hh.symm
          simp [aggStep, if_neg h, ordinaryContrib, h2]
      rw [hstep, ordinaryExpenseSum, ordinaryExpenseSum, List.map_cons, List.sum_cons]
      ring

lemma foldl_aggStep_investedFromMonthly (ts : List Transaction) :
    ∀ (acc : MonthKey → MonthlyData) (mk : MonthKey),
      (List.foldl aggStep acc ts mk).investedFromMonthly
        = (acc mk).investedFromMonthly + investMonthlySourceSum ts mk := by
  induction ts with
  | nil => intro acc mk; simp [investMonthlySourceSum]
  | cons t ts ih =>
      intro acc mk
      rw [List.foldl_cons, ih]
      have hstep : (aggStep acc t mk).investedFromMonthly
          = (acc mk).investedFromMonthly + investMonthlySourceContrib mk t := by
        by_cases h : mk = monthKeyOf t
        · subst h
          simp [aggStep, processTx_investedFromMonthly, investMonthlySourceContrib]
        · have h2 : monthKeyOf t ≠ mk := fun hh => h hh.symm
          simp [aggStep, if_neg h, investMonthlySourceContrib, h2]
      rw [hstep, investMonthlySourceSum, investMonthlySourceSum,
        List.map_cons, List.sum_cons]
      ring

/-- A monthly-budget-sourced investment transaction: category `投資`,
`investSource: 'monthly'`, hence tag `invest_monthly`. -/
def txInvestMonthly : Transaction :=
  { id := 1, date := ⟨2024, 1, 15⟩, category := investCategory, amount := 100
  , type := TxType.expense, tag := Tag.invest_monthly, note := ""
  , groupId := none, investSource := some InvestSource.monthly
  , fromSavings := false, fromEmergency := false, isAssetLiquidation := false }

/-- C1 counterexample: for the single monthly-budget-sourced investment
transaction of 100, the aggregator's `expense` for 2024-01 is 0, while the
claim's formula (ordinary expenses plus invest-from-monthly-budget
amounts) gives 100 — the final evolution does not fold monthly-sourced
investments into `expense`. -/
theorem C1_counterexample :
    (aggregateMonths [txInvestMonthly] (2024, 1)).expense
      ≠ specExpenseC1 [txInvestMonthly] (2024, 1) := by
  norm_num [aggregateMonths, aggStep, processTx, monthKeyOf, txInvestMonthly,
    emptyMonthlyData, incomeCategory, investCategory, specExpenseC1,
    ordinaryExpenseSum, ordinaryContrib, investMonthlyTagContrib]
  decide

/-- C1 (amended): for every transaction list and month, the aggregate
`expense` is exactly the sum of ordinary expense-category amounts of that
month not flagged `fromSavings`/`fromEmergency`; monthly-budget-sourced
investment amounts are not added to `expense` but accumulated separately
in `investedFromMonthly` (they reduce the month's remaining investable
budget, not net income). -/
theorem C1_expense_amended (ts : List Transaction) (mk : MonthKey) :
    (aggregateMonths ts mk).expense = ordinaryExpenseSum ts mk ∧
    (aggregateMonths ts mk).investedFromMonthly = investMonthlySourceSum ts mk := by
  constructor
  · rw [aggregateMonths, foldl_aggStep_expense]
    simp [emptyMonthlyData]
  · rw [aggregateMonths, foldl_aggStep_investedFromMonthly]
    simp [emptyMonthlyData]

/-! The four-month scenario of the specification (§8, properties 7–10). -/

/-- All-zero starting balances. -/
def zeroState : EngineState :=
  { cumulativeInvestable := 0, cumulativeSavings := 0
  , runningEmergencyFund := 0, carryOverBudget := 0, unfilledDeficit := 0 }

/-- A month aggregate with only income and ordinary expense. -/
def mdOf (inc exp : ℚ) : MonthlyData :=
  { emptyMonthlyData with income := inc, expense := exp }

/-- Scenario month 1: income 50000, expense 30000. -/
def scen1 : StepOut := stepMonth 60000 zeroState (mdOf 50000 30000)

/-- Scenario month 2: income 50000, expense 20000. -/
def scen2 : StepOut := stepMonth 60000 scen1.state (mdOf 50000 20000)

/-- Scenario month 3: income 40000, expense 60000. -/
def scen3 : StepOut := stepMonth 60000 scen2.state (mdOf 40000 60000)

/-- Scenario month 4: income 60000, expense 10000. -/
def scen4 : StepOut := stepMonth 60000 scen3.state (mdOf 60000 10000)

/-- C2: with all starting balances zero and emergencyGoal 60000, the four
scenario months (50000/30000, 50000/20000, 40000/60000, 60000/10000)
produce: month 1 diverts 20000 to the emergency fund (fund 20000, no
surplus carry-over, no savings add-on, month-2 budget 0); month 2 diverts
30000 (fund 50000, residual 0); month 3 deducts the 20000 deficit from the
cumulative pool (unfilledDeficit 20000, savings and fund unchanged);
month 4 repays 20000 (restoring the cumulative pool by 20000), diverts
10000 filling the fund to 60000, and splits the residual 20000 into
18000 carry-over and 2000 savings. -/
theorem C2_scenario :
    scen1.snapshot.divertedToEmergency = 20000 ∧
    scen1.state.runningEmergencyFund = 20000 ∧
    scen1.surplusForNextMonth = 0 ∧
    scen1.savingsAddon = 0 ∧
    scen1.state.carryOverBudget = 0 ∧
    scen2.snapshot.divertedToEmergency = 30000 ∧
    scen2.state.runningEmergencyFund = 50000 ∧
    scen2.surplusForNextMonth = 0 ∧
    scen2.savingsAddon = 0 ∧
    scen3.snapshot.deficitDeducted = 20000 ∧
    scen3.state.cumulativeInvestable = scen2.state.cumulativeInvestable - 20000 ∧
    scen3.state.unfilledDeficit = 20000 ∧
    scen3.state.cumulativeSavings = scen2.state.cumulativeSavings ∧
    scen3.state.runningEmergencyFund = scen2.state.runningEmergencyFund ∧
    scen4.snapshot.repaidDeficit = 20000 ∧
    scen4.snapshot.cumulativeAddOnAvailable
      = scen3.state.cumulativeInvestable + 20000 ∧
    scen4.snapshot.divertedToEmergency = 10000 ∧
    scen4.state.runningEmergencyFund = 60000 ∧
    scen4.surplusForNextMonth = 18000 ∧
    scen4.savingsAddon = 2000 ∧
    scen4.state.unfilledDeficit = 0 := by
  norm_num [scen4, scen3, scen2, scen1, stepMonth, finishMonth, mdOf,
    zeroState, emptyMonthlyData, min_def, max_def, abs]

/-- C3: entering a month with outstanding deficit `D > 0` and net income
`N > D`, the engine repays exactly `D` (restoring the cumulative pool by
`D`), then diverts `min (N - D) gap` to the emergency fund, and applies
the 90/10 split only to the residual `N - D - diverted` — never to the
gross net income. -/
theorem C3_deficit_repayment_precedence (goal : ℚ) (s : EngineState)
    (md : MonthlyData) (D N : ℚ)
    (hD : s.unfilledDeficit = D) (hDpos : 0 < D)
    (hN : md.income - md.expense = N) (hND : D < N) :
    (stepMonth goal s md).snapshot.repaidDeficit = D ∧
    (stepMonth goal s md).snapshot.cumulativeAddOnAvailable
      = s.cumulativeInvestable - md.investedFromCumulative + D ∧
    (stepMonth goal s md).snapshot.divertedToEmergency
      = min (N - D)
          (max 0 (goal - (s.runningEmergencyFund - md.emergencyExpense))) ∧
    (stepMonth goal s md).surplusForNextMonth
      = (N - D - (stepMonth goal s md).snapshot.divertedToEmergency) * 0.9 ∧
    (stepMonth goal s md).savingsAddon
      = (N - D - (stepMonth goal s md).snapshot.divertedToEmergency) * 0.1 := by
  have hnet0 : ¬ (N < 0) := by linarith
  have hmin : min N D = D := min_eq_right (le_of_lt hND)
  have havail : (0:ℚ) < N - D := by linarith
  simp only [stepMonth, finishMonth, hN, hD, if_neg hnet0, if_pos hDpos, hmin]
  rcases (le_max_left 0
      (goal - (s.runningEmergencyFund - md.emergencyExpense))).lt_or_eq with hg | hg
  · simp only [if_pos (And.intro havail hg)]
    have hdle : min (N - D)
        (max 0 (goal - (s.runningEmergencyFund - md.emergencyExpense)))
        ≤ N - D := min_le_left _ _
    refine ⟨trivial, by ring_nf, trivial, ?_, ?_⟩ <;>
    · rcases lt_or_le 0 (N - D - min (N - D)
          (max 0 (goal - (s.runningEmergencyFund - md.emergencyExpense)))) with hr | hr
      · rw [if_pos hr]
      · have hz : N - D - min (N - D)
            (max 0 (goal - (s.runningEmergencyFund - md.emergencyExpense))) = 0 := by
          linarith
        rw [hz]
        simp
  · rw [← hg]
    simp only [lt_irrefl, and_false, if_false]
    have h3 : (0:ℚ) = min (N - D) 0 := (min_eq_right havail.le).symm
    have hr : (0:ℚ) < N - D - 0 := by linarith
    exact ⟨trivial, by ring_nf, h3, by rw [if_pos hr], by rw [if_pos hr]⟩

/-- A month-4-like entering state: outstanding deficit 20000, cumulative
pool at -20000 after the strict deficit debit, emergency fund 50000. -/
def deficitState : EngineState :=
  { cumulativeInvestable := -20000, cumulativeSavings := 0
  , runningEmergencyFund := 50000, carryOverBudget := 0
  , unfilledDeficit := 20000 }

/-- C3 witness: the theorem instantiated at the scenario's fourth month
(deficit 20000 entering, net income 50000, goal 60000). -/
theorem C3_witness :
    (deficitState.unfilledDeficit = 20000 ∧ (0:ℚ) < 20000 ∧
      (mdOf 60000 10000).income - (mdOf 60000 10000).expense = 50000 ∧
      (20000:ℚ) < 50000) ∧
    ((stepMonth 60000 deficitState (mdOf 60000 10000)).snapshot.repaidDeficit
        = 20000 ∧
      (stepMonth 60000 deficitState (mdOf 60000 10000)).snapshot.cumulativeAddOnAvailable
        = deficitState.cumulativeInvestable
            - (mdOf 60000 10000).investedFromCumulative + 20000 ∧
      (stepMonth 60000 deficitState (mdOf 60000 10000)).snapshot.divertedToEmergency
        = min ((50000:ℚ) - 20000)
            (max 0 (60000 - (deficitState.runningEmergencyFund
              - (mdOf 60000 10000).emergencyExpense))) ∧
      (stepMonth 60000 deficitState (mdOf 60000 10000)).surplusForNextMonth
        = (50000 - 20000
            - (stepMonth 60000 deficitState
                (mdOf 60000 10000)).snapshot.divertedToEmergency) * 0.9 ∧
      (stepMonth 60000 deficitState (mdOf 60000 10000)).savingsAddon
        = (50000 - 20000
            - (stepMonth 60000 deficitState
                (mdOf 60000 10000)).snapshot.divertedToEmergency) * 0.1) :=
  ⟨⟨by norm_num [deficitState], by norm_num,
    by norm_num [mdOf, emptyMonthlyData], by norm_num⟩,
   C3_deficit_repayment_precedence 60000 deficitState (mdOf 60000 10000)
     20000 50000 (by norm_num [deficitState]) (by norm_num)
     (by norm_num [mdOf, emptyMonthlyData]) (by norm_num)⟩

/-- C4: in a month with no outstanding deficit, no emergency gap, and
nonnegative net income, the carried surplus and the savings add-on sum
to the month's net income exactly. -/
theorem C4_conservation (goal : ℚ) (s : EngineState) (md : MonthlyData)
    (h0 : s.unfilledDeficit = 0)
    (hfund : goal ≤ s.runningEmergencyFund - md.emergencyExpense)
    (hnet : 0 ≤ md.income - md.expense) :
    (stepMonth goal s md).surplusForNextMonth
      + (stepMonth goal s md).savingsAddon = md.income - md.expense := by
  have h1 : ¬ (md.income - md.expense < 0) := not_lt.mpr hnet
  have h2 : ¬ (0 < s.unfilledDeficit) := by rw [h0]; exact lt_irrefl 0
  have h3 : max 0 (goal - (s.runningEmergencyFund - md.emergencyExpense)) = 0 :=
    max_eq_left (by linarith)
  simp only [stepMonth, finishMonth, if_neg h1, if_neg h2, h3]
  rcases lt_or_le 0 (md.income - md.expense - 0 - 0) with h | h
  · simp only [if_pos h, lt_irrefl, and_false, if_false]
    ring_nf
  · have h4 : md.income - md.expense = 0 := by linarith
    simp [h4]

/-- A full-fund state: emergency fund 80000 against a 60000 goal, no
outstanding deficit. -/
def fullFundState : EngineState :=
  { cumulativeInvestable := 1000, cumulativeSavings := 500
  , runningEmergencyFund := 80000, carryOverBudget := 200
  , unfilledDeficit := 0 }

/-- C4 witness: the conservation theorem at a concrete full-fund month
with net income 30000. -/
theorem C4_witness :
    (fullFundState.unfilledDeficit = 0 ∧
      (60000:ℚ) ≤ fullFundState.runningEmergencyFund
        - (mdOf 50000 20000).emergencyExpense ∧
      0 ≤ (mdOf 50000 20000).income - (mdOf 50000 20000).expense) ∧
    (stepMonth 60000 fullFundState (mdOf 50000 20000)).surplusForNextMonth
      + (stepMonth 60000 fullFundState (mdOf 50000 20000)).savingsAddon
      = (mdOf 50000 20000).income - (mdOf 50000 20000).expense :=
  ⟨⟨by norm_num [fullFundState], by norm_num [fullFundState, mdOf, emptyMonthlyData],
    by norm_num [mdOf, emptyMonthlyData]⟩,
   C4_conservation 60000 fullFundState (mdOf 50000 20000)
     (by norm_num [fullFundState])
     (by norm_num [fullFundState, mdOf, emptyMonthlyData])
     (by norm_num [mdOf, emptyMonthlyData])⟩

lemma divert_cap (fund1 goal avail : ℚ) (h : fund1 ≤ goal) :
    fund1 + (if 0 < avail ∧ 0 < max 0 (goal - fund1) then
      min avail (max 0 (goal - fund1)) else 0) ≤ goal := by
  split_ifs with hc
  · have h1 : min avail (max 0 (goal - fund1)) ≤ max 0 (goal - fund1) :=
      min_le_right _ _
    have h2 : max 0 (goal - fund1) = goal - fund1 := max_eq_right (by linarith)
    linarith
  · linarith

/-- C5: if the running emergency fund (after this month's flagged
emergency expenses) does not exceed the goal, the diversion step never
pushes it above the goal: the month ends with `emergencyFund ≤ goal`. -/
theorem C5_emergency_cap (goal : ℚ) (s : EngineState) (md : MonthlyData)
    (h : s.runningEmergencyFund - md.emergencyExpense ≤ goal) :
    (stepMonth goal s md).snapshot.emergencyFund ≤ goal := by
  simp only [stepMonth, finishMonth]
  rcases lt_or_le (md.income - md.expense) 0 with hneg | hpos
  · simp only [if_pos hneg]; exact h
  · simp only [if_neg (not_lt.mpr hpos)]
    exact divert_cap _ _ _ h

/-- C5 witness: the cap theorem at the scenario's first month (fund 0,
goal 60000, surplus 20000). -/
theorem C5_witness :
    (zeroState.runningEmergencyFund - (mdOf 50000 30000).emergencyExpense
      ≤ 60000) ∧
    (stepMonth 60000 zeroState (mdOf 50000 30000)).snapshot.emergencyFund
      ≤ 60000 :=
  ⟨by norm_num [zeroState, mdOf, emptyMonthlyData],
   C5_emergency_cap 60000 zeroState (mdOf 50000 30000)
     (by norm_num [zeroState, mdOf, emptyMonthlyData])⟩

lemma sum_range_first_absorbs (per rem : ℚ) :
    ∀ n : ℕ, 0 < n →
      ((List.range n).map (fun i => if i = 0 then per + rem else per)).sum
        = n * per + rem := by
  intro n
  induction n with
  | zero => intro h; exact absurd h (lt_irrefl 0)
  | succ k ih =>
      intro _
      rw [List.range_succ, List.map_append, List.sum_append]
      rcases Nat.eq_zero_or_pos k with hk | hk
      · subst hk; simp
      · rw [ih hk]
        have hk0 : k ≠ 0 := Nat.pos_iff_ne_zero.mp hk
        simp only [List.map_cons, List.map_nil, List.sum_cons, List.sum_nil,
          if_neg hk0]
        push_cast
        ring

/-- C6: splitting a total `T` into `N > 1` installments generates exactly
`N` transactions, the first absorbing the division remainder so the
amounts sum to `T` exactly, and all sharing the one generated group id. -/
theorem C6_installment_sum (fd : FormData) (baseId nowMs count : ℕ)
    (T : ℤ) (h : 1 < count) :
    (genInstallments fd baseId nowMs count T).length = count ∧
    ((genInstallments fd baseId nowMs count T).map Transaction.amount).sum
      = (T : ℚ) ∧
    ∀ t ∈ genInstallments fd baseId nowMs count T,
      t.groupId = some (mkGroupId baseId nowMs) := by
  refine ⟨by simp [genInstallments], ?_, ?_⟩
  · have hmap : (genInstallments fd baseId nowMs count T).map Transaction.amount
        = (List.range count).map (fun i =>
            if i = 0 then ((T.fdiv count : ℤ) : ℚ)
                + ((T - T.fdiv count * count : ℤ) : ℚ)
            else ((T.fdiv count : ℤ) : ℚ)) := by
      rw [genInstallments, List.map_map]
      refine List.map_congr_left ?_
      intro i _
      simp only [Function.comp_apply, installmentTx]
      split <;> push_cast <;> ring
    rw [hmap, sum_range_first_absorbs _ _ count (by omega)]
    push_cast
    ring
  · intro t ht
    simp only [genInstallments, List.mem_map] at ht
    obtain ⟨i, _, rfl⟩ := ht
    rfl

/-- An entry form for a 3-way installment split. -/
def fdSplit : FormData :=
  { date := ⟨2024, 1, 31⟩, category := "電子產品", note := "phone"
  , tag := Tag.need, type := TxType.expense
  , investSource := InvestSource.monthly
  , fromSavings := false, fromEmergency := false, isAssetLiquidation := false }

/-- C6 witness: the installment theorem at total 100 split 3 ways
(amounts 34, 33, 33). -/
theorem C6_witness :
    1 < 3 ∧
    ((genInstallments fdSplit 7 123 3 100).length = 3 ∧
      ((genInstallments fdSplit 7 123 3 100).map Transaction.amount).sum
        = ((100 : ℤ) : ℚ) ∧
      ∀ t ∈ genInstallments fdSplit 7 123 3 100,
        t.groupId = some (mkGroupId 7 123)) :=
  ⟨by norm_num, C6_installment_sum fdSplit 7 123 3 100 (by norm_num)⟩

/-- C7: editing a member of an installment cohort maps the cohort edit
over the list; each member with the same group id receives the new
category, tag, and source-pool flags, the edited member alone receives
the new amount and note (siblings keep theirs), and transactions outside
the cohort are returned unchanged. -/
theorem C7_cohort_edit_propagation (ts : List Transaction) (eid : ℕ)
    (fd : FormData) (A : ℚ) (orig : Transaction) (g : String)
    (hfind : ts.find? (fun t => t.id == eid) = some orig)
    (hg : orig.groupId = some g) :
    handleSaveEdit ts eid fd A = ts.map (cohortEditTx fd A eid orig g) ∧
    ∀ t : Transaction,
      (t.groupId = some g →
        (cohortEditTx fd A eid orig g t).category = fd.category ∧
        (cohortEditTx fd A eid orig g t).tag = finalTag fd ∧
        (cohortEditTx fd A eid orig g t).fromSavings = fd.fromSavings ∧
        (cohortEditTx fd A eid orig g t).fromEmergency = fd.fromEmergency ∧
        (cohortEditTx fd A eid orig g t).isAssetLiquidation
          = fd.isAssetLiquidation ∧
        (t.id = eid →
          (cohortEditTx fd A eid orig g t).amount = A ∧
          (cohortEditTx fd A eid orig g t).note = fd.note) ∧
        (t.id ≠ eid →
          (cohortEditTx fd A eid orig g t).amount = t.amount ∧
          (cohortEditTx fd A eid orig g t).note = t.note)) ∧
      (t.groupId ≠ some g → cohortEditTx fd A eid orig g t = t) := by
  constructor
  · rw [handleSaveEdit, hfind]
    simp only [hg]
  · intro t
    constructor
    · intro hgid
      by_cases hid : t.id = eid <;>
        simp [cohortEditTx, hgid, hid]
    · intro hgid
      simp [cohortEditTx, hgid]

/-- First member of a concrete installment cohort. -/
def txCo1 : Transaction :=
  { id := 1, date := ⟨2024, 1, 10⟩, category := "飲食", amount := 34
  , type := TxType.expense, tag := Tag.need, note := "tv (1/3)"
  , groupId := some "grp", investSource := some InvestSource.monthly
  , fromSavings := false, fromEmergency := false, isAssetLiquidation := false }

/-- Second member of the cohort. -/
def txCo2 : Transaction :=
  { id := 2, date := ⟨2024, 2, 10⟩, category := "飲食", amount := 33
  , type := TxType.expense, tag := Tag.need, note := "tv (2/3)"
  , groupId := some "grp", investSource := some InvestSource.monthly
  , fromSavings := false, fromEmergency := false, isAssetLiquidation := false }

/-- A transaction outside the cohort. -/
def txSolo : Transaction :=
  { id := 3, date := ⟨2024, 1, 20⟩, category := "交通", amount := 12
  , type := TxType.expense, tag := Tag.want, note := "bus"
  , groupId := none, investSource := some InvestSource.monthly
  , fromSavings := false, fromEmergency := false, isAssetLiquidation := false }

/-- The concrete store holding the cohort and one outsider. -/
def tsCohort : List Transaction := [txCo1, txCo2, txSolo]

/-- The edit applied to cohort member 1: new category, tag and note. -/
def fdEdit : FormData :=
  { date := ⟨2024, 1, 10⟩, category := "娛樂", note := "tv2"
  , tag := Tag.want, type := TxType.expense
  , investSource := InvestSource.monthly
  , fromSavings := false, fromEmergency := false, isAssetLiquidation := false }

/-- C7 witness: the cohort-edit theorem at the concrete three-element
store, editing member 1 with a new amount of 50. -/
theorem C7_witness :
    (tsCohort.find? (fun t => t.id == 1) = some txCo1 ∧
      txCo1.groupId = some "grp") ∧
    (handleSaveEdit tsCohort 1 fdEdit 50
        = tsCohort.map (cohortEditTx fdEdit 50 1 txCo1 "grp") ∧
      ∀ t : Transaction,
        (t.groupId = some "grp" →
          (cohortEditTx fdEdit 50 1 txCo1 "grp" t).category = fdEdit.category ∧
          (cohortEditTx fdEdit 50 1 txCo1 "grp" t).tag = finalTag fdEdit ∧
          (cohortEditTx fdEdit 50 1 txCo1 "grp" t).fromSavings
            = fdEdit.fromSavings ∧
          (cohortEditTx fdEdit 50 1 txCo1 "grp" t).fromEmergency
            = fdEdit.fromEmergency ∧
          (cohortEditTx fdEdit 50 1 txCo1 "grp" t).isAssetLiquidation
            = fdEdit.isAssetLiquidation ∧
          (t.id = 1 →
            (cohortEditTx fdEdit 50 1 txCo1 "grp" t).amount = 50 ∧
            (cohortEditTx fdEdit 50 1 txCo1 "grp" t).note = fdEdit.note) ∧
          (t.id ≠ 1 →
            (cohortEditTx fdEdit 50 1 txCo1 "grp" t).amount = t.amount ∧
            (cohortEditTx fdEdit 50 1 txCo1 "grp" t).note = t.note)) ∧
        (t.groupId ≠ some "grp" →
          cohortEditTx fdEdit 50 1 txCo1 "grp" t = t)) :=
  ⟨⟨rfl, rfl⟩,
   C7_cohort_edit_propagation tsCohort 1 fdEdit 50 txCo1 "grp" rfl rfl⟩

/-- C8: a selected month absent from the processed month data yields the
zero-valued placeholder snapshot whose running totals are the values
accumulated through the latest processed month; the projector is total,
so an absent month never raises an error. -/
theorem C8_absent_month_fallback (goal : ℚ) (init : EngineState)
    (months : List (MonthKey × MonthlyData)) (sel : MonthKey)
    (h : ((runEngine goal init months).1).lookup sel = none) :
    selectMonthData goal init months sel
      = fallbackSnapshot goal (runEngine goal init months).2 ∧
    (selectMonthData goal init months sel).income = 0 ∧
    (selectMonthData goal init months sel).expense = 0 ∧
    (selectMonthData goal init months sel).netIncome = 0 ∧
    (selectMonthData goal init months sel).divertedToEmergency = 0 ∧
    (selectMonthData goal init months sel).repaidDeficit = 0 ∧
    (selectMonthData goal init months sel).deficitDeducted = 0 ∧
    (selectMonthData goal init months sel).categoryMap = [] ∧
    (selectMonthData goal init months sel).savings
      = (runEngine goal init months).2.cumulativeSavings ∧
    (selectMonthData goal init months sel).emergencyFund
      = (runEngine goal init months).2.runningEmergencyFund ∧
    (selectMonthData goal init months sel).cumulativeAddOnAvailable
      = (runEngine goal init months).2.cumulativeInvestable ∧
    (selectMonthData goal init months sel).monthlyMaxInvestable
      = (runEngine goal init months).2.carryOverBudget := by
  have hsel : selectMonthData goal init months sel
      = fallbackSnapshot goal (runEngine goal init months).2 := by
    rw [selectMonthData]
    simp only [h]
  rw [hsel]
  simp [fallbackSnapshot, emptyMonthlyData]

/-- C8 witness: the fallback theorem with no processed months and the
selected month 2024-01. -/
theorem C8_witness :
    ((runEngine 0 zeroState []).1.lookup ((2024 : ℤ), (1 : ℤ)) = none) ∧
    selectMonthData 0 zeroState [] ((2024 : ℤ), (1 : ℤ))
      = fallbackSnapshot 0 (runEngine 0 zeroState []).2 ∧
    (selectMonthData 0 zeroState [] ((2024 : ℤ), (1 : ℤ))).income = 0 ∧
    (selectMonthData 0 zeroState [] ((2024 : ℤ), (1 : ℤ))).savings
      = (runEngine 0 zeroState []).2.cumulativeSavings :=
  ⟨rfl,
   (C8_absent_month_fallback 0 zeroState [] ((2024 : ℤ), (1 : ℤ)) rfl).1,
   (C8_absent_month_fallback 0 zeroState [] ((2024 : ℤ), (1 : ℤ)) rfl).2.1,
   (C8_absent_month_fallback 0 zeroState [] ((2024 : ℤ), (1 : ℤ)) rfl).2.2.2.2.2.2.2.2.1⟩

/-- A month whose flagged emergency expense (100) overdraws the zero
emergency fund while income 50 leaves a positive net. -/
def mdEmergencyOverdraw : MonthlyData :=
  { emptyMonthlyData with income := 50, emergencyExpense := 100 }

/-- C9 counterexample: with emergencyGoal = 0 and a month whose flagged
emergency expense drives the running fund to −100, the gap
`max(0, 0 − (−100)) = 100` is positive and the engine diverts 50 of the
surplus — so a zero goal does not guarantee that no diversion ever
occurs. -/
theorem C9_counterexample :
    0 < (stepMonth 0 zeroState mdEmergencyOverdraw).snapshot.divertedToEmergency := by
  norm_num [stepMonth, finishMonth, zeroState, mdEmergencyOverdraw,
    emptyMonthlyData, min_def, max_def]

/-- C9 (amended): with a non-positive emergency goal, no surplus is ever
diverted provided the running fund (after flagged emergency expenses) is
nonnegative; and the percentage-of-goal display treats goal = 0 as 0%
rather than NaN/Infinity. -/
theorem C9_zero_goal_amended (goal : ℚ) (s : EngineState)
    (md : MonthlyData) :
    (goal ≤ 0 → 0 ≤ s.runningEmergencyFund - md.emergencyExpense →
      (stepMonth goal s md).snapshot.divertedToEmergency = 0) ∧
    ∀ fund : ℚ, emergencyProgress fund 0 = 0 := by
  constructor
  · intro hg hf
    have hgap : max 0 (goal - (s.runningEmergencyFund - md.emergencyExpense))
        = 0 := max_eq_left (by linarith)
    simp only [stepMonth, finishMonth]
    rcases lt_or_le (md.income - md.expense) 0 with hneg | hpos
    · simp only [if_pos hneg]
    · simp only [if_neg (not_lt.mpr hpos), hgap, lt_irrefl, and_false,
        if_false]
  · intro fund
    simp [emergencyProgress]

/-- C9 witness: the amended theorem at goal 0, zero starting fund, a month
with income 10 and expense 5, and the display at fund 7. -/
theorem C9_witness :
    ((0:ℚ) ≤ 0 ∧
      0 ≤ zeroState.runningEmergencyFund - (mdOf 10 5).emergencyExpense) ∧
    (stepMonth 0 zeroState (mdOf 10 5)).snapshot.divertedToEmergency = 0 ∧
    emergencyProgress 7 0 = 0 :=
  ⟨⟨le_refl 0, by norm_num [zeroState, mdOf, emptyMonthlyData]⟩,
   (C9_zero_goal_amended 0 zeroState (mdOf 10 5)).1 (le_refl 0)
     (by norm_num [zeroState, mdOf, emptyMonthlyData]),
   (C9_zero_goal_amended 0 zeroState (mdOf 10 5)).2 7⟩

/-- C10: a transaction with both `fromSavings` and `fromEmergency` set on
an ordinary expense category is counted in `savingsExpense` only
(`fromSavings` wins the `if`/`else if` race), leaves `emergencyExpense`,
`expense`, `need` and `want` untouched, and is still added to the month's
category map. -/
theorem C10_double_flag_precedence (md : MonthlyData) (t : Transaction)
    (hs : t.fromSavings = true) (he : t.fromEmergency = true)
    (hc1 : t.category ≠ incomeCategory) (hc2 : t.category ≠ investCategory) :
    (processTx md t).savingsExpense = md.savingsExpense + t.amount ∧
    (processTx md t).emergencyExpense = md.emergencyExpense ∧
    (processTx md t).expense = md.expense ∧
    (processTx md t).need = md.need ∧
    (processTx md t).want = md.want ∧
    (processTx md t).categoryMap
      = bumpCategory md.categoryMap t.category t.amount := by
  simp [processTx, hs, he, hc1, hc2]

/-- A double-flagged ordinary expense transaction. -/
def txDoubleFlag : Transaction :=
  { id := 9, date := ⟨2024, 3, 5⟩, category := "醫療", amount := 40
  , type := TxType.expense, tag := Tag.need, note := "er"
  , groupId := none, investSource := none
  , fromSavings := true, fromEmergency := true, isAssetLiquidation := false }

/-- C10 witness: the double-flag theorem at the concrete transaction and
the empty month bucket. -/
theorem C10_witness :
    (txDoubleFlag.fromSavings = true ∧ txDoubleFlag.fromEmergency = true ∧
      txDoubleFlag.category ≠ incomeCategory ∧
      txDoubleFlag.category ≠ investCategory) ∧
    ((processTx emptyMonthlyData txDoubleFlag).savingsExpense
        = emptyMonthlyData.savingsExpense + txDoubleFlag.amount ∧
      (processTx emptyMonthlyData txDoubleFlag).emergencyExpense
        = emptyMonthlyData.emergencyExpense ∧
      (processTx emptyMonthlyData txDoubleFlag).expense
        = emptyMonthlyData.expense ∧
      (processTx emptyMonthlyData txDoubleFlag).need = emptyMonthlyData.need ∧
      (processTx emptyMonthlyData txDoubleFlag).want = emptyMonthlyData.want ∧
      (processTx emptyMonthlyData txDoubleFlag).categoryMap
        = bumpCategory emptyMonthlyData.categoryMap txDoubleFlag.category
            txDoubleFlag.amount) :=
  ⟨⟨rfl, rfl, by decide, by decide⟩,
   C10_double_flag_precedence emptyMonthlyData txDoubleFlag rfl rfl
     (by decide) (by decide)⟩

end CriticalWealth
